import Mathlib

/-!
# Lazy-minting protocol: shallow embedding and verification

This file embeds the two sides of the lazy-minting example
(`lib/index.js`, the off-chain `LazyMinter` signer, and
`contracts/LazyNFT.sol`, the on-chain verifier/redeemer) and settles the
specification's claims about them.

Byte strings are modelled symbolically: a byte string is a sequence whose
elements are either concrete bytes or an opaque 32-byte `keccak256` output,
kept as a constructor applied to the hashed pre-image.  This is the standard
ideal-hash (symbolic) model: two byte strings are equal exactly when they are
structurally equal, i.e. `keccak256` is treated as collision-free and its
outputs as atomic.  ECDSA is modelled the same way: a signature records the
key and the exact hash that was signed; recovery against the signed hash
yields the key's address, recovery against any other hash yields a distinct
"wrong" address (the overwhelming-probability case for real ECDSA).
-/

set_option maxRecDepth 8192

namespace LazyMint

/-- Symbolic byte strings: a cons-list whose items are either a concrete
byte (`byte n rest`, with `n < 256` for meaningful inputs) or the opaque
32-byte output of `keccak256` applied to another byte string
(`hash pre rest`). -/
inductive B where
  | nil : B
  | byte : Nat → B → B
  | hash : B → B → B
deriving DecidableEq, Repr

/-- Concatenation of symbolic byte strings. -/
def B.app : B → B → B
  | .nil, t => t
  | .byte n r, t => .byte n (B.app r t)
  | .hash h r, t => .hash h (B.app r t)

/-- Concatenation of a list of symbolic byte strings. -/
def B.cat (l : List B) : B := l.foldr B.app B.nil

/-- Embed a list of concrete bytes. -/
def B.ofList : List Nat → B
  | [] => .nil
  | n :: r => .byte n (B.ofList r)

/-- The 32 big-endian bytes of a 256-bit unsigned integer (`uint256` ABI
encoding of `n % 2^256`). -/
def wordBytes (n : Nat) : List Nat :=
  (List.range 32).map (fun i => n / 256 ^ (31 - i) % 256)

/-- A `uint256` value as a 32-byte symbolic byte string. -/
def B.word (n : Nat) : B := B.ofList (wordBytes n)

/-- The single opaque 32-byte string `keccak256(content)`. -/
def B.h (content : B) : B := .hash content .nil

/-- Byte list of an ASCII string (code points = bytes for ASCII input). -/
def ascii (s : String) : List Nat := s.data.map Char.toNat

/-! ## EIP-712 typed data: types and records

The off-chain signer (`lib/index.js`) declares its EIP-712 type schema in
the `LazyMinter` constructor; the voucher and domain records are the data
both sides encode. -/

/-- One field of an EIP-712 struct type: `{name, type}` as declared in the
`types` table of the `LazyMinter` constructor. -/
structure TypeField where
  fname : List Nat
  ftype : List Nat
deriving DecidableEq, Repr

/-- `this.types.EIP712Domain` from the `LazyMinter` constructor. -/
def eip712DomainFields : List TypeField :=
  [⟨ascii "name", ascii "string"⟩,
   ⟨ascii "version", ascii "string"⟩,
   ⟨ascii "chainId", ascii "uint256"⟩,
   ⟨ascii "verifyingContract", ascii "address"⟩]

/-- `this.types.NFTVoucher` from the `LazyMinter` constructor. -/
def nftVoucherFields : List TypeField :=
  [⟨ascii "tokenId", ascii "uint256"⟩,
   ⟨ascii "minPrice", ascii "uint256"⟩,
   ⟨ascii "uri", ascii "string"⟩]

/-- The EIP-712 domain descriptor `{name, version, chainId, verifyingContract}`. -/
structure Domain where
  name : List Nat
  version : List Nat
  chainId : Nat
  verifyingContract : Nat
deriving DecidableEq, Repr

/-- The voucher record `{tokenId, minPrice, uri}` (`NFTVoucher` struct in the
contract, `voucher` object in the signer); `uri` is its byte string. -/
structure NFTVoucher where
  tokenId : Nat
  minPrice : Nat
  uri : List Nat
deriving DecidableEq, Repr

/-- `SIGNING_DOMAIN_NAME = "LazyNFT-Voucher"` (lib/index.js), equal to the
name the contract passes to its `EIP712` constructor. -/
def signingDomainName : List Nat := ascii "LazyNFT-Voucher"

/-- `SIGNING_DOMAIN_VERSION = "1"`. -/
def signingDomainVersion : List Nat := ascii "1"

/-! ## Off-chain encoder

Modelled from the spec: the signer calls `TypedDataUtils.encodeDigest` of
the external `ethers-eip712` package (not part of this repository), which
implements the EIP-712 encoding the spec fixes in §6: canonical type
strings, struct hash with string fields hashed, and the
`0x19 0x01 ‖ domainSeparator ‖ structHash` digest. -/

/-- Separate a list of byte strings with `","` (byte 44). -/
def joinComma : List (List Nat) → List Nat
  | [] => []
  | [x] => x
  | x :: r => x ++ [44] ++ joinComma r

/-- EIP-712 `encodeType`: `TypeName(type1 name1,type2 name2,...)`;
40/41 are `(`/`)` and 32 is the space. -/
def encodeType (tn : List Nat) (fs : List TypeField) : List Nat :=
  tn ++ [40] ++ joinComma (fs.map (fun f => f.ftype ++ [32] ++ f.fname)) ++ [41]

/-- EIP-712 type hash of the declared `EIP712Domain` type. -/
def domainTypeHash : B := B.h (B.ofList (encodeType (ascii "EIP712Domain") eip712DomainFields))

/-- EIP-712 type hash of the declared `NFTVoucher` type (off-chain side). -/
def voucherTypeHash : B := B.h (B.ofList (encodeType (ascii "NFTVoucher") nftVoucherFields))

/-- Pre-image of the EIP-712 domain separator: type hash, hashed `name` and
`version` strings, `chainId` and `verifyingContract` as 32-byte words. -/
def domainSeparatorContent (d : Domain) : B :=
  B.cat [domainTypeHash, B.h (B.ofList d.name), B.h (B.ofList d.version),
         B.word d.chainId, B.word d.verifyingContract]

/-- The EIP-712 domain separator (32 bytes). -/
def domainSeparator (d : Domain) : B := B.h (domainSeparatorContent d)

/-- Pre-image of the off-chain voucher struct hash: type hash, the two
`uint256` fields as words, and the `uri` string field hashed (EIP-712
encodes dynamic `string` fields by their `keccak256`). -/
def voucherStructContentOff (v : NFTVoucher) : B :=
  B.cat [voucherTypeHash, B.word v.tokenId, B.word v.minPrice, B.h (B.ofList v.uri)]

/-- Off-chain voucher struct hash (32 bytes). -/
def voucherStructHashOff (v : NFTVoucher) : B := B.h (voucherStructContentOff v)

/-- Pre-image of the final EIP-712 digest: `0x19 0x01 ‖ domainSeparator ‖
structHash`. -/
def encodeDigestContent (d : Domain) (v : NFTVoucher) : B :=
  B.byte 25 (B.byte 1 (B.cat [domainSeparator d, voucherStructHashOff v]))

/-- `TypedDataUtils.encodeDigest(typedData)`: the 32-byte digest the
off-chain signer computes for domain `d` and voucher `v`. -/
def encodeDigest (d : Domain) (v : NFTVoucher) : B := B.h (encodeDigestContent d v)

/-! ## On-chain encoder (`contracts/LazyNFT.sol`)

`_voucherSignatureABI` and `_hash` translated literally from the contract;
`_hashTypedDataV4` is OpenZeppelin's `EIP712` helper (modelled from the
spec's digest schema: `keccak256(0x19 0x01 ‖ domainSeparator ‖ structHash)`
with the domain separator built from the constructor arguments
`("LazyNFT-Voucher", "1")`, the chain id and the contract's own address). -/

/-- `bytes32 constant _voucherSignatureABI =
keccak256("NFTVoucher(uint256 tokenId,uint256 minPrice,string uri))")` —
the literal from the contract, including its doubled closing parenthesis. -/
def _voucherSignatureABI : B :=
  B.h (B.ofList (ascii "NFTVoucher(uint256 tokenId,uint256 minPrice,string uri))"))

/-- Zero-pad a byte list on the right to a multiple of 32 bytes (ABI tail
padding for `bytes`). -/
def pad32 (l : List Nat) : List Nat :=
  l ++ List.replicate ((32 - l.length % 32) % 32) 0

/-- `abi.encode(_voucherSignatureABI, voucher.tokenId, voucher.minPrice,
bytes(voucher.uri))`: heads are the `bytes32`, the two `uint256`s and the
offset (128) of the dynamic `bytes` argument; the tail is the `uri` length
word followed by its bytes padded to 32. -/
def abiEncodeVoucher (v : NFTVoucher) : B :=
  B.cat [_voucherSignatureABI, B.word v.tokenId, B.word v.minPrice,
         B.word 128, B.word v.uri.length, B.ofList (pad32 v.uri)]

/-- The contract's own EIP-712 domain separator, from
`EIP712("LazyNFT-Voucher", "1")`, the executing chain's id and the
contract's address. -/
def onchainDomain (chainId caddr : Nat) : Domain :=
  ⟨signingDomainName, signingDomainVersion, chainId, caddr⟩

/-- `_hash(voucher)`: `_hashTypedDataV4(keccak256(abi.encode(...)))` — the
digest the contract computes for a submitted voucher. -/
def _hash (chainId caddr : Nat) (v : NFTVoucher) : B :=
  B.h (B.byte 25 (B.byte 1
    (B.cat [domainSeparator (onchainDomain chainId caddr),
            B.h (abiEncodeVoucher v)])))

/-! ## Symbolic ECDSA

A signature records the signing key and the 32-byte hash that was signed.
`ecrecover` against the signed hash yields the key's address; against any
other hash it yields a distinct `recovered` address (modelling the
overwhelming-probability "wrong address" outcome of real ECDSA recovery);
a malformed signature recovers to nothing.  OpenZeppelin's `ECDSA.recover`
reverts when recovery fails, so the verifier treats `none` as the
`InvalidSignature` condition. -/

/-- Ledger account addresses: the zero address, the address belonging to a
private key, or the junk address produced by recovering a signature made
over `signed` against a different hash `given`. -/
inductive Address where
  | zero : Address
  | key : Nat → Address
  | recovered : Nat → B → B → Address
deriving DecidableEq, Repr

/-- A (well-formed or malformed) ECDSA signature. -/
inductive Sig where
  | make : Nat → B → Sig
  | malformed : Nat → Sig
deriving DecidableEq, Repr

/-- Symbolic ECDSA public-key recovery. -/
def ecrecover (digest : B) (s : Sig) : Option Address :=
  match s with
  | .make k signed => if signed = digest then some (.key k) else some (.recovered k signed digest)
  | .malformed _ => none

/-- `signer.signMessage(message)` (ethers): signs the keccak256 of the
message prefixed with `"\x19Ethereum Signed Message:\n" + length`.  The
signer always passes the 32-byte digest, so the length text is `"32"`. -/
def signMessage (k : Nat) (message : B) : Sig :=
  .make k (B.h (B.app (B.ofList (ascii "\x19Ethereum Signed Message:\n32")) message))

/-! ## The off-chain `LazyMinter` (lib/index.js) -/

/-- The state of a `LazyMinter` instance: the constructor stores the
redemption contract's address and the signer handle (its key and the chain
id its provider reports); `domainCache` is the `this._domain` field, unset
after construction. -/
structure LazyMinter where
  contractAddress : Nat
  signerKey : Nat
  signerChainId : Nat
  domainCache : Option Domain
deriving DecidableEq, Repr

/-- `new LazyMinter({contractAddress, signer})`. -/
def LazyMinter.mk' (contractAddress signerKey signerChainId : Nat) : LazyMinter :=
  ⟨contractAddress, signerKey, signerChainId, none⟩

/-- `_signingDomain()`: return the cached domain if present; otherwise call
`signer.getChainId()`, build and cache the domain.  The third component
counts the `getChainId` calls this invocation made (0 or 1). -/
def _signingDomain (lm : LazyMinter) : Domain × LazyMinter × Nat :=
  match lm.domainCache with
  | some d => (d, lm, 0)
  | none =>
    let d : Domain :=
      ⟨signingDomainName, signingDomainVersion, lm.signerChainId, lm.contractAddress⟩
    (d, { lm with domainCache := some d }, 1)

/-- The `{voucher, signature, digest}` object `createVoucher` returns. -/
structure SignedVoucher where
  voucher : NFTVoucher
  signature : Sig
  digest : B
deriving DecidableEq, Repr

/-- `createVoucher(tokenId, uri, minPrice)`: build the voucher, obtain the
(possibly cached) signing domain, encode the digest and sign it with
`signer.signMessage`.  Also returns the updated instance state and the
number of `getChainId` calls made. -/
def createVoucher (lm : LazyMinter) (tokenId : Nat) (uri : List Nat) (minPrice : Nat) :
    SignedVoucher × LazyMinter × Nat :=
  let v : NFTVoucher := ⟨tokenId, minPrice, uri⟩
  let r := _signingDomain lm
  let dg := encodeDigest r.1 v
  (⟨v, signMessage lm.signerKey dg, dg⟩, r.2.1, r.2.2)

/-- Run a list of `createVoucher` calls (tokenId, uri, minPrice) on an
instance, returning the final instance state and the total number of
`getChainId` calls. -/
def runCalls (lm : LazyMinter) : List (Nat × List Nat × Nat) → LazyMinter × Nat
  | [] => (lm, 0)
  | (t, u, p) :: rest =>
    let r := createVoucher lm t u p
    let rr := runCalls r.2.1 rest
    (rr.1, r.2.2 + rr.2)

/-! ## The on-chain ledger state and `redeem`

The ERC721/AccessControl collaborators are external modules; per the spec
they are modelled at their interface boundary: token ownership and metadata
tables, ether balances, and the `MINTER_ROLE` membership table.  The
`_mint`/`_setTokenURI`/`_transfer` behaviour (existence and zero-address
checks) is that of the OpenZeppelin implementations the contract inherits. -/

/-- The observable ledger state: ERC721 ownership and token-URI tables,
ether balances, and `MINTER_ROLE` membership. -/
@[ext]
structure Chain where
  owners : Nat → Option Address
  uris : Nat → Option (List Nat)
  bal : Address → Nat
  minter : Address → Bool

/-- The named failure conditions of the redemption path, one per `require`
that can fire. -/
inductive RedeemError where
  | invalidSignature
  | unauthorizedSigner
  | insufficientPayment
  | duplicateTokenId
  | mintToZero
  | transferToZero
  | transferNotOwner
  | uriNonexistent
deriving DecidableEq, Repr

/-- ERC721 `_mint(to, tokenId)`: reverts for the zero address or an already
minted id, otherwise records `to` as owner. -/
def _mint (s : Chain) (toAddr : Address) (tokenId : Nat) : Except RedeemError Chain :=
  if toAddr = .zero then .error .mintToZero
  else match s.owners tokenId with
    | some _ => .error .duplicateTokenId
    | none => .ok { s with owners := fun t => if t = tokenId then some toAddr else s.owners t }

/-- ERC721URIStorage `_setTokenURI(tokenId, uri)`: reverts for a
nonexistent token, otherwise records the URI. -/
def _setTokenURI (s : Chain) (tokenId : Nat) (uri : List Nat) : Except RedeemError Chain :=
  match s.owners tokenId with
  | none => .error .uriNonexistent
  | some _ => .ok { s with uris := fun t => if t = tokenId then some uri else s.uris t }

/-- ERC721 `_transfer(from, to, tokenId)`: reverts unless `from` owns the
token and `to` is nonzero, otherwise reassigns ownership. -/
def _transfer (s : Chain) (sender toAddr : Address) (tokenId : Nat) : Except RedeemError Chain :=
  if s.owners tokenId ≠ some sender then .error .transferNotOwner
  else if toAddr = .zero then .error .transferToZero
  else .ok { s with owners := fun t => if t = tokenId then some toAddr else s.owners t }

/-- `creator.transfer(msg.value)`: credit the attached value to the
recipient's balance. -/
def sendValue (s : Chain) (toAddr : Address) (amount : Nat) : Chain :=
  { s with bal := fun a => if a = toAddr then s.bal a + amount else s.bal a }

/-- `_verify(voucher, signature)`: recompute the digest with `_hash` and
recover the signer; OpenZeppelin's `ECDSA.recover` reverts when recovery
fails. -/
def _verify (chainId caddr : Nat) (v : NFTVoucher) (sig : Sig) :
    Except RedeemError Address :=
  match ecrecover (_hash chainId caddr v) sig with
  | none => .error .invalidSignature
  | some a => .ok a

/-- `redeem(redeemer, voucher, signature)`, `payable` with `msgValue`
attached and submitted by `caller` (`msg.sender`, which the body never
reads): verify the signature, check `MINTER_ROLE`, check payment, mint to
the signer, set the token URI, transfer to the redeemer, forward the value
to the signer, and return the token id.  A `.error` outcome is a Solidity
revert: no state is committed. -/
def redeem (chainId caddr : Nat) (s : Chain) (caller : Address) (msgValue : Nat)
    (redeemer : Address) (v : NFTVoucher) (sig : Sig) :
    Except RedeemError (Chain × Nat) :=
  match ecrecover (_hash chainId caddr v) sig with
  | none => .error .invalidSignature
  | some signer =>
    if s.minter signer then
      if msgValue < v.minPrice then .error .insufficientPayment
      else match _mint s signer v.tokenId with
        | .error e => .error e
        | .ok s1 => match _setTokenURI s1 v.tokenId v.uri with
          | .error e => .error e
          | .ok s2 => match _transfer s2 signer redeemer v.tokenId with
            | .error e => .error e
            | .ok s3 => .ok (sendValue s3 signer msgValue, v.tokenId)
    else .error .unauthorizedSigner

/-- The same step sequence as `redeem`, but *without* the ledger's rollback:
it returns the state actually reached when execution stopped (including any
effects applied before a failing step) together with the failing condition,
if any.  Comparing it with `redeem` is what makes the atomicity claim about
the rollback non-trivial. -/
def redeemSteps (chainId caddr : Nat) (s : Chain) (caller : Address) (msgValue : Nat)
    (redeemer : Address) (v : NFTVoucher) (sig : Sig) : Chain × Option RedeemError :=
  match ecrecover (_hash chainId caddr v) sig with
  | none => (s, some .invalidSignature)
  | some signer =>
    if s.minter signer then
      if msgValue < v.minPrice then (s, some .insufficientPayment)
      else match _mint s signer v.tokenId with
        | .error e => (s, some e)
        | .ok s1 => match _setTokenURI s1 v.tokenId v.uri with
          | .error e => (s1, some e)
          | .ok s2 => match _transfer s2 signer redeemer v.tokenId with
            | .error e => (s2, some e)
            | .ok s3 => (sendValue s3 signer msgValue, none)
    else (s, some .unauthorizedSigner)

/-- The ledger state a transaction leaves behind: the new state when the
invocation returned, the pre-state when it reverted (the ledger's atomic
transaction guarantee). -/
def commitState (s : Chain) (r : Except RedeemError (Chain × Nat)) : Chain :=
  match r with
  | .ok (s', _) => s'
  | .error _ => s

/-- The ledger state after a successful redemption, written out: the token
owned by the redeemer, its URI set, and the attached value credited to the
signer. -/
def redeemResultChain (s : Chain) (signer redeemer : Address) (v : NFTVoucher)
    (msgValue : Nat) : Chain :=
  { owners := fun t => if t = v.tokenId then some redeemer else s.owners t,
    uris := fun t => if t = v.tokenId then some v.uri else s.uris t,
    bal := fun a => if a = signer then s.bal a + msgValue else s.bal a,
    minter := s.minter }

/-! ## Concrete fixtures (the spec's end-to-end scenario) -/

/-- The spec's end-to-end voucher `{tokenId: 1, minPrice: 0, uri: "ipfs://abc"}`. -/
def sampleVoucher : NFTVoucher := ⟨1, 0, ascii "ipfs://abc"⟩

/-- The same voucher with `minPrice = 100` (the underpayment scenario). -/
def pricedVoucher : NFTVoucher := ⟨1, 100, ascii "ipfs://abc"⟩

/-- The spec's end-to-end domain: network id 31337, contract address
`0xCCCC` (52428). -/
def sampleDomain : Domain := ⟨signingDomainName, signingDomainVersion, 31337, 52428⟩

/-- An initial ledger: no tokens, no balances, `MINTER_ROLE` held exactly by
the address of key 7. -/
def sampleChain : Chain :=
  { owners := fun _ => none, uris := fun _ => none, bal := fun _ => 0,
    minter := fun a => if a = .key 7 then true else false }

/-- A raw signature by key `k` over the on-chain digest of voucher `v` (what
an issuer would have to produce for `_verify` to recover its address). -/
def rawOnchainSig (k chainId caddr : Nat) (v : NFTVoucher) : Sig :=
  .make k (_hash chainId caddr v)

/-- The domain `_signingDomain` builds on a cache miss for an instance. -/
def standardDomain (lm : LazyMinter) : Domain :=
  ⟨signingDomainName, signingDomainVersion, lm.signerChainId, lm.contractAddress⟩

/-! ## Helper lemmas -/

/-- A successfully recovered address is never the zero address (OpenZeppelin
`ECDSA.recover` reverts on a zero recovery result). -/
lemma ecrecover_some_ne_zero {d : B} {sig : Sig} {a : Address}
    (h : ecrecover d sig = some a) : a ≠ .zero := by
  cases sig with
  | make k signed =>
    unfold ecrecover at h
    by_cases hs : signed = d
    · simp [hs] at h; simp [← h]
    · simp [hs] at h; simp [← h]
  | malformed n => simp [ecrecover] at h

/-- Core success lemma: when the signature recovers an authorized signer,
payment covers the minimum price, the token id is fresh and the redeemer is
nonzero, `redeem` commits exactly the state described by
`redeemResultChain` and returns the token id. -/
lemma redeem_ok_aux {chainId caddr : Nat} {s : Chain} {caller : Address}
    {msgValue : Nat} {redeemer : Address} {v : NFTVoucher} {sig : Sig} {signer : Address}
    (hrec : ecrecover (_hash chainId caddr v) sig = some signer)
    (hrole : s.minter signer = true)
    (hval : v.minPrice ≤ msgValue)
    (hfresh : s.owners v.tokenId = none)
    (hrdm : redeemer ≠ .zero) :
    redeem chainId caddr s caller msgValue redeemer v sig =
      .ok (redeemResultChain s signer redeemer v msgValue, v.tokenId) := by
  have hz : signer ≠ Address.zero := ecrecover_some_ne_zero hrec
  have hnl : ¬ msgValue < v.minPrice := Nat.not_lt.mpr hval
  unfold redeem
  rw [hrec]
  simp only [hrole, if_true]
  rw [if_neg hnl]
  simp only [_mint, if_neg hz, hfresh]
  simp only [_setTokenURI, _transfer, sendValue]
  simp only [redeemResultChain]
  simp
  rw [if_neg hrdm]
  simp only [Except.ok.injEq, Prod.mk.injEq, and_true]
  ext t
  · by_cases ht : t = v.tokenId <;> simp [ht]
  · rfl
  · rfl
  · rfl

/-- A `createVoucher` call on an instance whose domain cache is populated
reuses the cached domain, makes no `getChainId` call and leaves the
instance unchanged. -/
lemma createVoucher_cached {lm : LazyMinter} {d : Domain} (h : lm.domainCache = some d)
    (t : Nat) (u : List Nat) (p : Nat) :
    createVoucher lm t u p =
      (⟨⟨t, p, u⟩, signMessage lm.signerKey (encodeDigest d ⟨t, p, u⟩),
        encodeDigest d ⟨t, p, u⟩⟩, lm, 0) := by
  unfold createVoucher _signingDomain
  rw [h]

/-- A `createVoucher` call on an instance with an empty domain cache makes
exactly one `getChainId` call and caches the standard domain. -/
lemma createVoucher_fresh {lm : LazyMinter} (h : lm.domainCache = none)
    (t : Nat) (u : List Nat) (p : Nat) :
    createVoucher lm t u p =
      (⟨⟨t, p, u⟩, signMessage lm.signerKey (encodeDigest (standardDomain lm) ⟨t, p, u⟩),
        encodeDigest (standardDomain lm) ⟨t, p, u⟩⟩,
       { lm with domainCache := some (standardDomain lm) }, 1) := by
  unfold createVoucher _signingDomain standardDomain
  rw [h]

/-- Once the cache is populated no sequence of calls ever fetches again or
changes the instance state. -/
lemma runCalls_cached {lm : LazyMinter} {d : Domain} (h : lm.domainCache = some d) :
    ∀ calls, runCalls lm calls = (lm, 0) := by
  intro calls
  induction calls with
  | nil => rfl
  | cons c rest ih =>
    obtain ⟨t, u, p⟩ := c
    unfold runCalls
    rw [createVoucher_cached h]
    simpa using ih

/-- `redeem` agrees with the rollback-free step sequence `redeemSteps`:
equal failure conditions, and on success the committed state is the state
the steps reached. -/
lemma redeem_eq_redeemSteps (chainId caddr : Nat) (s : Chain) (caller : Address)
    (msgValue : Nat) (redeemer : Address) (v : NFTVoucher) (sig : Sig) :
    redeem chainId caddr s caller msgValue redeemer v sig =
      match redeemSteps chainId caddr s caller msgValue redeemer v sig with
      | (s', none) => .ok (s', v.tokenId)
      | (_, some e) => .error e := by
  unfold redeem redeemSteps
  cases ecrecover (_hash chainId caddr v) sig with
  | none => rfl
  | some signer =>
    by_cases hrole : s.minter signer = true
    · by_cases hlt : msgValue < v.minPrice
      · simp [hrole, hlt]
      · simp only [hrole, hlt, if_true, if_false, ite_true, ite_false]
        cases _mint s signer v.tokenId with
        | error e => simp
        | ok s1 =>
          dsimp only
          cases _setTokenURI s1 v.tokenId v.uri with
          | error e => simp
          | ok s2 =>
            dsimp only
            cases _transfer s2 signer redeemer v.tokenId with
            | error e => simp
            | ok s3 => simp
    · simp [hrole]

/-! ## The claims -/

/-- Claim C1 (refuted; the code contradicts its own EIP-712 documentation):
the digest the off-chain encoder computes is NOT byte-for-byte equal to the
digest `_hash` computes for the same domain and voucher.  The contract's
type tag carries a doubled closing parenthesis, and `_hash` ABI-encodes the
raw `uri` bytes where EIP-712 requires the string's keccak256.  Shown at
the spec's end-to-end scenario (chain id 31337, contract `0xCCCC`, voucher
`{1, 0, "ipfs://abc"}`), then as the negation of the universal claim. -/
theorem offchain_onchain_digest_disagree :
    encodeDigest sampleDomain sampleVoucher ≠ _hash 31337 52428 sampleVoucher ∧
    ¬ (∀ (chainId caddr : Nat) (v : NFTVoucher),
        encodeDigest ⟨signingDomainName, signingDomainVersion, chainId, caddr⟩ v =
          _hash chainId caddr v) := by
  constructor
  · decide
  · intro h
    exact absurd (h 31337 52428 sampleVoucher) (by decide)

/-- Claim C2 (refuted; the signing path is broken): the signature
`createVoucher` produces does not recover to the holder's address, neither
against the off-chain digest included in its result nor against the
on-chain digest `_verify` recomputes — `signer.signMessage` signs the
`"\x19Ethereum Signed Message:\n32"`-prefixed hash of the digest, not the
digest itself, so `ECDSA.recover(digest, signature)` yields a different
address. -/
theorem createVoucher_roundtrip_fails :
    ecrecover (createVoucher (LazyMinter.mk' 52428 7 31337) 1 (ascii "ipfs://abc") 0).1.digest
        (createVoucher (LazyMinter.mk' 52428 7 31337) 1 (ascii "ipfs://abc") 0).1.signature ≠
      some (Address.key 7) ∧
    ecrecover (_hash 31337 52428 sampleVoucher)
        (createVoucher (LazyMinter.mk' 52428 7 31337) 1 (ascii "ipfs://abc") 0).1.signature ≠
      some (Address.key 7) := by
  constructor <;> decide

/-- Claim C3 (refuted; typo in the constant): the canonical type signature
string of the declared `NFTVoucher` fields is
`"NFTVoucher(uint256 tokenId,uint256 minPrice,string uri)"`, but
`_voucherSignatureABI` is the hash of that string with an extra closing
parenthesis appended, so the two differ. -/
theorem voucherSignatureABI_mismatch :
    encodeType (ascii "NFTVoucher") nftVoucherFields =
      ascii "NFTVoucher(uint256 tokenId,uint256 minPrice,string uri)" ∧
    _voucherSignatureABI ≠
      B.h (B.ofList (ascii "NFTVoucher(uint256 tokenId,uint256 minPrice,string uri)")) := by
  constructor <;> decide

/-- Claim C4 (confirmed): when the recovered signer does not hold
`MINTER_ROLE`, `redeem` reverts with the `UnauthorizedSigner` condition and
the committed ledger state is exactly the pre-state — no asset is
created. -/
theorem redeem_unauthorized_reverts (chainId caddr : Nat) (s : Chain) (caller : Address)
    (msgValue : Nat) (redeemer : Address) (v : NFTVoucher) (sig : Sig) (a : Address)
    (hrec : ecrecover (_hash chainId caddr v) sig = some a)
    (hrole : s.minter a = false) :
    redeem chainId caddr s caller msgValue redeemer v sig = .error .unauthorizedSigner ∧
    commitState s (redeem chainId caddr s caller msgValue redeemer v sig) = s := by
  have h1 : redeem chainId caddr s caller msgValue redeemer v sig =
      .error .unauthorizedSigner := by
    unfold redeem
    rw [hrec]
    simp [hrole]
  exact ⟨h1, by rw [h1]; rfl⟩

/-- Witness for claim C4: key 9 signs the correct on-chain digest but holds
no `MINTER_ROLE` in `sampleChain` (only key 7 does); redemption reverts
with `UnauthorizedSigner` and commits nothing. -/
theorem redeem_unauthorized_reverts_witness :
    redeem 31337 52428 sampleChain (Address.key 1) 0 (Address.key 2) sampleVoucher
        (rawOnchainSig 9 31337 52428 sampleVoucher) = .error .unauthorizedSigner ∧
    commitState sampleChain
        (redeem 31337 52428 sampleChain (Address.key 1) 0 (Address.key 2) sampleVoucher
          (rawOnchainSig 9 31337 52428 sampleVoucher)) = sampleChain :=
  redeem_unauthorized_reverts 31337 52428 sampleChain (Address.key 1) 0 (Address.key 2)
    sampleVoucher (rawOnchainSig 9 31337 52428 sampleVoucher) (Address.key 9)
    (by decide) (by decide)

/-- Claim C5 (confirmed): with an authorized recovered signer, an attached
value strictly below `minPrice` makes `redeem` revert with
`InsufficientPayment` committing nothing, while a value exactly equal to
`minPrice` passes the payment check and (with a fresh token id and a
nonzero redeemer, i.e. all other checks passing) the redemption succeeds. -/
theorem redeem_payment_gate (chainId caddr : Nat) (s : Chain) (caller : Address)
    (msgValue : Nat) (redeemer : Address) (v : NFTVoucher) (sig : Sig) (a : Address)
    (hrec : ecrecover (_hash chainId caddr v) sig = some a)
    (hrole : s.minter a = true) :
    (msgValue < v.minPrice →
      redeem chainId caddr s caller msgValue redeemer v sig = .error .insufficientPayment ∧
      commitState s (redeem chainId caddr s caller msgValue redeemer v sig) = s) ∧
    (msgValue = v.minPrice → s.owners v.tokenId = none → redeemer ≠ .zero →
      redeem chainId caddr s caller msgValue redeemer v sig =
        .ok (redeemResultChain s a redeemer v msgValue, v.tokenId)) := by
  constructor
  · intro hlt
    have h1 : redeem chainId caddr s caller msgValue redeemer v sig =
        .error .insufficientPayment := by
      unfold redeem
      rw [hrec]
      simp [hrole, hlt]
    exact ⟨h1, by rw [h1]; rfl⟩
  · intro heq hfresh hrdm
    exact redeem_ok_aux hrec hrole (Nat.le_of_eq heq.symm) hfresh hrdm

/-- Witness for claim C5: the spec's underpayment scenario — `minPrice`
100, value 50 reverts with `InsufficientPayment`; value exactly 100
succeeds and returns token id 1. -/
theorem redeem_payment_gate_witness :
    (redeem 31337 52428 sampleChain (Address.key 1) 50 (Address.key 2) pricedVoucher
        (rawOnchainSig 7 31337 52428 pricedVoucher) = .error .insufficientPayment) ∧
    (redeem 31337 52428 sampleChain (Address.key 1) 100 (Address.key 2) pricedVoucher
        (rawOnchainSig 7 31337 52428 pricedVoucher) =
      .ok (redeemResultChain sampleChain (Address.key 7) (Address.key 2) pricedVoucher 100, 1)) :=
  ⟨((redeem_payment_gate 31337 52428 sampleChain (Address.key 1) 50 (Address.key 2)
      pricedVoucher (rawOnchainSig 7 31337 52428 pricedVoucher) (Address.key 7)
      (by decide) (by decide)).1 (by decide)).1,
   (redeem_payment_gate 31337 52428 sampleChain (Address.key 1) 100 (Address.key 2)
      pricedVoucher (rawOnchainSig 7 31337 52428 pricedVoucher) (Address.key 7)
      (by decide) (by decide)).2 (by decide) (by decide) (by decide)⟩

/-- Claim C6 (confirmed): after a first voucher for a token id is
successfully redeemed, redeeming any second validly signed voucher with the
same token id (authorized signer, sufficient payment) reverts with the
duplicate-identifier condition (`ERC721: token already minted`), commits
nothing, and leaves the redeemed token's ownership untouched. -/
theorem redeem_duplicate_tokenId (chainId caddr : Nat) (s : Chain)
    (c1 : Address) (val1 : Nat) (rdm1 : Address) (v1 : NFTVoucher) (sig1 : Sig) (a1 : Address)
    (c2 : Address) (val2 : Nat) (rdm2 : Address) (v2 : NFTVoucher) (sig2 : Sig) (a2 : Address)
    (hrec1 : ecrecover (_hash chainId caddr v1) sig1 = some a1)
    (hrole1 : s.minter a1 = true) (hval1 : v1.minPrice ≤ val1)
    (hfresh : s.owners v1.tokenId = none) (hrdm1 : rdm1 ≠ .zero)
    (htid : v2.tokenId = v1.tokenId)
    (hrec2 : ecrecover (_hash chainId caddr v2) sig2 = some a2)
    (hrole2 : s.minter a2 = true) (hval2 : v2.minPrice ≤ val2) :
    redeem chainId caddr s c1 val1 rdm1 v1 sig1 =
      .ok (redeemResultChain s a1 rdm1 v1 val1, v1.tokenId) ∧
    redeem chainId caddr (redeemResultChain s a1 rdm1 v1 val1) c2 val2 rdm2 v2 sig2 =
      .error .duplicateTokenId ∧
    commitState (redeemResultChain s a1 rdm1 v1 val1)
        (redeem chainId caddr (redeemResultChain s a1 rdm1 v1 val1) c2 val2 rdm2 v2 sig2) =
      redeemResultChain s a1 rdm1 v1 val1 ∧
    (redeemResultChain s a1 rdm1 v1 val1).owners v1.tokenId = some rdm1 := by
  have h1 := @redeem_ok_aux chainId caddr s c1 val1 rdm1 v1 sig1 a1
    hrec1 hrole1 hval1 hfresh hrdm1
  have h2 : redeem chainId caddr (redeemResultChain s a1 rdm1 v1 val1) c2 val2 rdm2 v2 sig2 =
      .error .duplicateTokenId := by
    unfold redeem
    rw [hrec2]
    have hm2 : (redeemResultChain s a1 rdm1 v1 val1).minter a2 = true := hrole2
    simp only [hm2, if_true]
    rw [if_neg (Nat.not_lt.mpr hval2)]
    unfold _mint
    rw [if_neg (ecrecover_some_ne_zero hrec2)]
    simp [redeemResultChain, htid]
  exact ⟨h1, h2, by rw [h2]; rfl, by simp [redeemResultChain]⟩

/-- Witness for claim C6: key 7 signs two vouchers for token id 1 (second
with a different URI); the first redemption succeeds, the second reverts
with the duplicate condition and the token still belongs to the first
redeemer. -/
theorem redeem_duplicate_tokenId_witness :
    redeem 31337 52428 sampleChain (Address.key 1) 0 (Address.key 2) sampleVoucher
        (rawOnchainSig 7 31337 52428 sampleVoucher) =
      .ok (redeemResultChain sampleChain (Address.key 7) (Address.key 2) sampleVoucher 0, 1) ∧
    redeem 31337 52428
        (redeemResultChain sampleChain (Address.key 7) (Address.key 2) sampleVoucher 0)
        (Address.key 3) 0 (Address.key 4) ⟨1, 0, ascii "ipfs://other"⟩
        (rawOnchainSig 7 31337 52428 ⟨1, 0, ascii "ipfs://other"⟩) =
      .error .duplicateTokenId ∧
    commitState (redeemResultChain sampleChain (Address.key 7) (Address.key 2) sampleVoucher 0)
        (redeem 31337 52428
          (redeemResultChain sampleChain (Address.key 7) (Address.key 2) sampleVoucher 0)
          (Address.key 3) 0 (Address.key 4) ⟨1, 0, ascii "ipfs://other"⟩
          (rawOnchainSig 7 31337 52428 ⟨1, 0, ascii "ipfs://other"⟩)) =
      redeemResultChain sampleChain (Address.key 7) (Address.key 2) sampleVoucher 0 ∧
    (redeemResultChain sampleChain (Address.key 7) (Address.key 2) sampleVoucher 0).owners 1 =
      some (Address.key 2) :=
  redeem_duplicate_tokenId 31337 52428 sampleChain
    (Address.key 1) 0 (Address.key 2) sampleVoucher (rawOnchainSig 7 31337 52428 sampleVoucher)
    (Address.key 7)
    (Address.key 3) 0 (Address.key 4) ⟨1, 0, ascii "ipfs://other"⟩
    (rawOnchainSig 7 31337 52428 ⟨1, 0, ascii "ipfs://other"⟩) (Address.key 7)
    (by decide) (by decide) (by decide) (by decide) (by decide) (by decide)
    (by decide) (by decide) (by decide)

/-- Claim C7 (confirmed): every invocation is atomic — whenever the
rollback-free step sequence stops with one of the failure conditions
(whatever effects it had already applied), `redeem` reverts with that
condition and the committed ledger state is exactly the pre-state; when no
step fails, `redeem` commits precisely the state the steps reached and
returns the token id. -/
theorem redeem_atomic (chainId caddr : Nat) (s : Chain) (caller : Address) (msgValue : Nat)
    (redeemer : Address) (v : NFTVoucher) (sig : Sig) :
    (∀ e, (redeemSteps chainId caddr s caller msgValue redeemer v sig).2 = some e →
      redeem chainId caddr s caller msgValue redeemer v sig = .error e ∧
      commitState s (redeem chainId caddr s caller msgValue redeemer v sig) = s) ∧
    ((redeemSteps chainId caddr s caller msgValue redeemer v sig).2 = none →
      redeem chainId caddr s caller msgValue redeemer v sig =
        .ok ((redeemSteps chainId caddr s caller msgValue redeemer v sig).1, v.tokenId) ∧
      commitState s (redeem chainId caddr s caller msgValue redeemer v sig) =
        (redeemSteps chainId caddr s caller msgValue redeemer v sig).1) := by
  have hrel := redeem_eq_redeemSteps chainId caddr s caller msgValue redeemer v sig
  rcases hP : redeemSteps chainId caddr s caller msgValue redeemer v sig with ⟨s', oe⟩
  rw [hP] at hrel
  cases oe with
  | none =>
    constructor
    · intro e he
      simp at he
    · intro _
      exact ⟨hrel, by rw [hrel]; rfl⟩
  | some e' =>
    constructor
    · intro e he
      simp at he
      subst he
      exact ⟨hrel, by rw [hrel]; rfl⟩
    · intro hn
      simp at hn

/-- Witness for claim C7: a valid, authorized, sufficiently paid voucher
sent to the zero redeemer — minting succeeds in the step sequence (the
partial state owns token 1) but the transfer step fails, and the committed
state is the untouched pre-state. -/
theorem redeem_atomic_witness :
    (redeemSteps 31337 52428 sampleChain (Address.key 1) 0 Address.zero sampleVoucher
        (rawOnchainSig 7 31337 52428 sampleVoucher)).2 = some .transferToZero ∧
    (redeemSteps 31337 52428 sampleChain (Address.key 1) 0 Address.zero sampleVoucher
        (rawOnchainSig 7 31337 52428 sampleVoucher)).1.owners 1 = some (Address.key 7) ∧
    sampleChain.owners 1 = none ∧
    redeem 31337 52428 sampleChain (Address.key 1) 0 Address.zero sampleVoucher
        (rawOnchainSig 7 31337 52428 sampleVoucher) = .error .transferToZero ∧
    commitState sampleChain
        (redeem 31337 52428 sampleChain (Address.key 1) 0 Address.zero sampleVoucher
          (rawOnchainSig 7 31337 52428 sampleVoucher)) = sampleChain := by
  refine ⟨by decide, by decide, by decide, ?_⟩
  exact (redeem_atomic 31337 52428 sampleChain (Address.key 1) 0 Address.zero sampleVoucher
    (rawOnchainSig 7 31337 52428 sampleVoucher)).1 .transferToZero (by decide)

/-- Claim C8 (confirmed): a successful redemption performs, in order,
minting of `voucher.tokenId` to the recovered signer (provenance), setting
its metadata URI, transfer from the signer to the redeemer, and forwarding
of the entire attached value to the signer's balance, returning the token
id; the committed state records the redeemer as owner, the voucher's URI
and the signer's increased balance. -/
theorem redeem_success_effects (chainId caddr : Nat) (s : Chain) (caller : Address)
    (msgValue : Nat) (redeemer : Address) (v : NFTVoucher) (sig : Sig) (signer : Address)
    (hrec : ecrecover (_hash chainId caddr v) sig = some signer)
    (hrole : s.minter signer = true)
    (hval : v.minPrice ≤ msgValue)
    (hfresh : s.owners v.tokenId = none)
    (hrdm : redeemer ≠ .zero) :
    ∃ s1 s2 s3 : Chain,
      _mint s signer v.tokenId = .ok s1 ∧ s1.owners v.tokenId = some signer ∧
      _setTokenURI s1 v.tokenId v.uri = .ok s2 ∧ s2.uris v.tokenId = some v.uri ∧
      _transfer s2 signer redeemer v.tokenId = .ok s3 ∧ s3.owners v.tokenId = some redeemer ∧
      redeem chainId caddr s caller msgValue redeemer v sig =
        .ok (sendValue s3 signer msgValue, v.tokenId) ∧
      sendValue s3 signer msgValue = redeemResultChain s signer redeemer v msgValue ∧
      (redeemResultChain s signer redeemer v msgValue).owners v.tokenId = some redeemer ∧
      (redeemResultChain s signer redeemer v msgValue).uris v.tokenId = some v.uri ∧
      (redeemResultChain s signer redeemer v msgValue).bal signer = s.bal signer + msgValue := by
  have hz : signer ≠ Address.zero := ecrecover_some_ne_zero hrec
  refine ⟨{ s with owners := fun t => if t = v.tokenId then some signer else s.owners t },
    { owners := fun t => if t = v.tokenId then some signer else s.owners t,
      uris := fun t => if t = v.tokenId then some v.uri else s.uris t,
      bal := s.bal, minter := s.minter },
    { owners := fun t => if t = v.tokenId then some redeemer
        else if t = v.tokenId then some signer else s.owners t,
      uris := fun t => if t = v.tokenId then some v.uri else s.uris t,
      bal := s.bal, minter := s.minter },
    ?_, by simp, ?_, by simp, ?_, by simp, ?_, ?_,
    by simp [redeemResultChain], by simp [redeemResultChain], by simp [redeemResultChain]⟩
  · unfold _mint
    rw [if_neg hz, hfresh]
  · unfold _setTokenURI
    simp
  · unfold _transfer
    simp [hrdm]
  · have hsend : sendValue
        ({ owners := fun t => if t = v.tokenId then some redeemer
             else if t = v.tokenId then some signer else s.owners t,
           uris := fun t => if t = v.tokenId then some v.uri else s.uris t,
           bal := s.bal, minter := s.minter } : Chain) signer msgValue =
        redeemResultChain s signer redeemer v msgValue := by
      unfold sendValue redeemResultChain
      ext t
      · by_cases ht : t = v.tokenId <;> simp [ht]
      · rfl
      · rfl
      · rfl
    rw [hsend]
    exact @redeem_ok_aux chainId caddr s caller msgValue redeemer v sig signer
      hrec hrole hval hfresh hrdm
  · unfold sendValue redeemResultChain
    ext t
    · by_cases ht : t = v.tokenId <;> simp [ht]
    · rfl
    · rfl
    · rfl

/-- Witness for claim C8: the spec's end-to-end scenario — key 7 as issuer,
buyer `key 2`, zero attached value; token 1 ends up owned by the buyer with
URI `ipfs://abc`, the issuer's balance is credited with 0, and the result
is token id 1. -/
theorem redeem_success_effects_witness :
    redeem 31337 52428 sampleChain (Address.key 1) 0 (Address.key 2) sampleVoucher
        (rawOnchainSig 7 31337 52428 sampleVoucher) =
      .ok (redeemResultChain sampleChain (Address.key 7) (Address.key 2) sampleVoucher 0, 1) ∧
    (redeemResultChain sampleChain (Address.key 7) (Address.key 2) sampleVoucher 0).owners 1 =
      some (Address.key 2) ∧
    (redeemResultChain sampleChain (Address.key 7) (Address.key 2) sampleVoucher 0).uris 1 =
      some (ascii "ipfs://abc") ∧
    (redeemResultChain sampleChain (Address.key 7) (Address.key 2) sampleVoucher 0).bal
      (Address.key 7) = 0 := by
  obtain ⟨s1, s2, s3, h1, h2, h3, h4, h5, h6, h7, h8, h9, h10, h11⟩ :=
    redeem_success_effects 31337 52428 sampleChain (Address.key 1) 0 (Address.key 2)
      sampleVoucher (rawOnchainSig 7 31337 52428 sampleVoucher) (Address.key 7)
      (by decide) (by decide) (by decide) (by decide) (by decide)
  exact ⟨by rw [h7, h8]; rfl, h9, h10, h11⟩

/-- Claim C9 (confirmed): the network identifier is fetched at most once
per `LazyMinter` instance — on a fresh instance the first `createVoucher`
makes the single `getChainId` call and populates the domain cache, any
sequence of `n` calls makes `min n 1` fetches in total, and a call on an
instance with a populated cache reuses the cached domain verbatim, fetches
nothing and leaves the instance unchanged. -/
theorem domain_fetched_once (lm : LazyMinter) (t : Nat) (u : List Nat) (p : Nat)
    (calls : List (Nat × List Nat × Nat)) (d : Domain) :
    (lm.domainCache = none →
      (createVoucher lm t u p).2.2 = 1 ∧
      (createVoucher lm t u p).2.1.domainCache = some (standardDomain lm) ∧
      (runCalls lm calls).2 = min calls.length 1) ∧
    (lm.domainCache = some d →
      createVoucher lm t u p =
        (⟨⟨t, p, u⟩, signMessage lm.signerKey (encodeDigest d ⟨t, p, u⟩),
          encodeDigest d ⟨t, p, u⟩⟩, lm, 0)) := by
  constructor
  · intro hnone
    refine ⟨by rw [createVoucher_fresh hnone], by rw [createVoucher_fresh hnone], ?_⟩
    cases calls with
    | nil => rfl
    | cons c rest =>
      obtain ⟨t', u', p'⟩ := c
      simp only [runCalls, createVoucher_fresh hnone]
      rw [runCalls_cached
        (show ({ lm with domainCache := some (standardDomain lm) }).domainCache =
          some (standardDomain lm) from rfl) rest]
      simp [Nat.min_def]
  · exact fun h => createVoucher_cached h t u p

/-- Witness for claim C9: a fresh instance run through three
`createVoucher` calls performs exactly one `getChainId` fetch and caches
the standard domain; a fourth call on the cached instance fetches nothing. -/
theorem domain_fetched_once_witness :
    (createVoucher (LazyMinter.mk' 52428 7 31337) 1 (ascii "ipfs://abc") 0).2.2 = 1 ∧
    (createVoucher (LazyMinter.mk' 52428 7 31337) 1 (ascii "ipfs://abc") 0).2.1.domainCache =
      some (standardDomain (LazyMinter.mk' 52428 7 31337)) ∧
    (runCalls (LazyMinter.mk' 52428 7 31337)
      [(1, ascii "a", 0), (2, ascii "b", 5), (3, ascii "c", 9)]).2 = 1 :=
  (domain_fetched_once (LazyMinter.mk' 52428 7 31337) 1 (ascii "ipfs://abc") 0
    [(1, ascii "a", 0), (2, ascii "b", 5), (3, ascii "c", 9)] sampleDomain).1 (by decide)

/-- Claim C10 (confirmed): the body of `redeem` never reads the caller —
the outcome for fixed arguments, value and pre-state is identical whichever
account submits the transaction — and on success the token is delivered to
the `redeemer` argument, which need not be the caller. -/
theorem redeem_caller_agnostic (chainId caddr : Nat) (s : Chain) (caller caller2 : Address)
    (msgValue : Nat) (redeemer : Address) (v : NFTVoucher) (sig : Sig) (signer : Address) :
    redeem chainId caddr s caller msgValue redeemer v sig =
      redeem chainId caddr s caller2 msgValue redeemer v sig ∧
    (ecrecover (_hash chainId caddr v) sig = some signer → s.minter signer = true →
      v.minPrice ≤ msgValue → s.owners v.tokenId = none → redeemer ≠ .zero →
      redeem chainId caddr s caller msgValue redeemer v sig =
        .ok (redeemResultChain s signer redeemer v msgValue, v.tokenId) ∧
      (redeemResultChain s signer redeemer v msgValue).owners v.tokenId = some redeemer) :=
  ⟨rfl, fun hrec hrole hval hfresh hrdm =>
    ⟨@redeem_ok_aux chainId caddr s caller msgValue redeemer v sig signer
        hrec hrole hval hfresh hrdm,
     by simp [redeemResultChain]⟩⟩

/-- Witness for claim C10: callers `key 1` and `key 5` obtain the same
result, and the asset goes to the distinct redeemer `key 2`. -/
theorem redeem_caller_agnostic_witness :
    redeem 31337 52428 sampleChain (Address.key 1) 0 (Address.key 2) sampleVoucher
        (rawOnchainSig 7 31337 52428 sampleVoucher) =
      redeem 31337 52428 sampleChain (Address.key 5) 0 (Address.key 2) sampleVoucher
        (rawOnchainSig 7 31337 52428 sampleVoucher) ∧
    redeem 31337 52428 sampleChain (Address.key 1) 0 (Address.key 2) sampleVoucher
        (rawOnchainSig 7 31337 52428 sampleVoucher) =
      .ok (redeemResultChain sampleChain (Address.key 7) (Address.key 2) sampleVoucher 0, 1) ∧
    (redeemResultChain sampleChain (Address.key 7) (Address.key 2) sampleVoucher 0).owners 1 =
      some (Address.key 2) := by
  obtain ⟨heq, himp⟩ :=
    redeem_caller_agnostic 31337 52428 sampleChain (Address.key 1) (Address.key 5) 0
      (Address.key 2) sampleVoucher (rawOnchainSig 7 31337 52428 sampleVoucher) (Address.key 7)
  obtain ⟨hok, hown⟩ := himp (by decide) (by decide) (by decide) (by decide) (by decide)
  exact ⟨heq, hok, hown⟩

end LazyMint
